import Mathlib

/-
Verification of the Echo repository: a browser chat page (text / file / audio
input dispatched to a backend analysis endpoint), a client-side file
validator, an audio recorder component, and a small NestJS log relay.
The definitions below are a shallow embedding of the TypeScript source;
machine-level effects (fetch, React state) are made explicit:
the two observable phases of each dispatch (synchronous start, asynchronous
settlement) become explicit state-passing functions, and the outcome of the
awaited fetch/json chain becomes an inductive parameter.
-/

set_option linter.unusedVariables false

namespace Echo

/-- Sender of a chat message; the source union type is the pair of string
literals "user" and "ai" in the Message interface of the chat page. -/
inductive Sender where
  | user
  | ai
deriving DecidableEq

/-- Kind of a chat message; the source union type is the string literals
"text", "file" and "audio" in the Message interface. -/
inductive MsgType where
  | text
  | file
  | audio
deriving DecidableEq

/-- The Message interface of the chat page. Timestamps (JS Date values) are
modelled as natural numbers of milliseconds since the epoch; `audioDuration`
(a JS float number of seconds, always produced as an integral number of
milliseconds divided by 1000) is modelled by its numerator in milliseconds. -/
structure Message where
  id : String
  content : String
  sender : Sender
  timestamp : Nat
  type : MsgType
  fileName : Option String := none
  fileSize : Option Nat := none
  audioDuration : Option Nat := none
deriving DecidableEq

/-- The state of the ChatPage component that the claims are about: the
useState message list and the useState isTyping flag (the Responding flag of
the spec). -/
structure ChatState where
  messages : List Message
  isTyping : Bool
deriving DecidableEq

/-- The seeded assistant greeting (initial value of the messages useState).
Its timestamp is the page-load Date, modelled as 0. -/
def seedMessage : Message :=
  { id := "1"
  , content := "Hello! I\x27m your AI assistant. How can I help you today?"
  , sender := Sender.ai
  , timestamp := 0
  , type := MsgType.text }

/-- Initial ChatPage state: seeded greeting, isTyping false. -/
def initialState : ChatState :=
  { messages := [seedMessage], isTyping := false }

/-- Outcome of one awaited backend call, as observed by the handlers:
`success r` is a 2xx response whose body parsed as JSON, with `r` the value
of the `response` field (`none` when absent; the spec gives the response
shape as a record with an optional string field, so string-or-absent is the
value space); `httpError st` is a completed non-2xx response (the handler
throws before reading the body); `networkError` is a rejected fetch or a
body that fails JSON parsing. -/
inductive BackendOutcome where
  | success (respField : Option String)
  | httpError (status : Nat)
  | networkError
deriving DecidableEq

/-- JavaScript `a || b` specialised to a string-or-undefined left operand:
`undefined` and the empty string are falsy, every other string is truthy. -/
def jsStringOr (v : Option String) (fallback : String) : String :=
  match v with
  | none => fallback
  | some s => if s = "" then fallback else s

/-- Fixed fallback acknowledgement of handleSendMessage. -/
def textFallbackContent : String :=
  "I received your message and processed it successfully."

/-- Fixed error string of handleSendMessage. -/
def textErrorContent : String :=
  "Sorry, I encountered an error while processing your message. Please try again."

/-- Fallback acknowledgement of handleFileUpload (embeds the file name). -/
def fileFallbackContent (fileName : String) : String :=
  "I\x27ve received and processed your file \x22" ++ fileName ++ "\x22."

/-- Fixed error string of handleFileUpload. -/
def fileErrorContent : String :=
  "Sorry, I encountered an error while uploading your file. Please try again."

/-- Drops trailing zero characters from a digit list. -/
def dropTrailingZeros (l : List Char) : List Char :=
  (l.reverse.dropWhile (fun c => c = '0')).reverse

/-- Three zero-padded decimal digit characters of a number below 1000. -/
def fracDigits3 (fp : Nat) : List Char :=
  [Nat.digitChar (fp / 100), Nat.digitChar (fp / 10 % 10), Nat.digitChar (fp % 10)]

/-- JavaScript Number.prototype.toString for the durations the recorder
produces: the recorder computes `(Date.now() - start) / 1000`, an integral
count of milliseconds divided by 1000, and JS prints the shortest round-trip
decimal, which for these values (far below 2^53 milliseconds) is the exact
decimal quotient with trailing fractional zeros removed. -/
def durationToString (ms : Nat) : String :=
  let ip := ms / 1000
  let fp := ms % 1000
  if fp = 0 then Nat.repr ip
  else Nat.repr ip ++ "." ++ List.asString (dropTrailingZeros (fracDigits3 fp))

/-- Fallback acknowledgement of handleAudioUpload: the template literal
embeds the duration value verbatim via string interpolation. -/
def audioFallbackContent (durMs : Nat) : String :=
  "I\x27ve received and processed your voice message (" ++ durationToString durMs ++ "s)."

/-- Fixed error string of handleAudioUpload. -/
def audioErrorContent : String :=
  "Sorry, I encountered an error while processing your voice message. Please try again."

/-- The user message built by handleSendMessage: id is Date.now().toString()
at dispatch start. -/
def userTextMsg (t1 : Nat) (content : String) : Message :=
  { id := Nat.repr t1, content := content, sender := Sender.user
  , timestamp := t1, type := MsgType.text }

/-- The user message built by handleFileUpload. -/
def userFileMsg (t1 : Nat) (name : String) (size : Nat) : Message :=
  { id := Nat.repr t1, content := "Uploaded file: " ++ name, sender := Sender.user
  , timestamp := t1, type := MsgType.file, fileName := some name, fileSize := some size }

/-- The user message built by handleAudioUpload. -/
def userAudioMsg (t1 : Nat) (durMs : Nat) : Message :=
  { id := Nat.repr t1, content := "Voice message recorded", sender := Sender.user
  , timestamp := t1, type := MsgType.audio, audioDuration := some durMs }

/-- An assistant message as built on settlement by each handler: id is
(Date.now() + 1).toString() with Date.now() read at settlement, and the
type is always the literal "text". -/
def assistantMsg (t2 : Nat) (content : String) : Message :=
  { id := Nat.repr (t2 + 1), content := content, sender := Sender.ai
  , timestamp := t2, type := MsgType.text }

/-- Content of the assistant message appended when a text dispatch settles:
`data.response || fallback` on success, the fixed error string when the
handler threw (non-ok status or rejected fetch/json). -/
def textSettleContent : BackendOutcome → String
  | BackendOutcome.success r => jsStringOr r textFallbackContent
  | BackendOutcome.httpError _ => textErrorContent
  | BackendOutcome.networkError => textErrorContent

/-- Content of the assistant message appended when a file dispatch settles. -/
def fileSettleContent (name : String) : BackendOutcome → String
  | BackendOutcome.success r => jsStringOr r (fileFallbackContent name)
  | BackendOutcome.httpError _ => fileErrorContent
  | BackendOutcome.networkError => fileErrorContent

/-- Content of the assistant message appended when an audio dispatch settles. -/
def audioSettleContent (durMs : Nat) : BackendOutcome → String
  | BackendOutcome.success r => jsStringOr r (audioFallbackContent durMs)
  | BackendOutcome.httpError _ => audioErrorContent
  | BackendOutcome.networkError => audioErrorContent

/-- Synchronous prefix of handleSendMessage (before the first await):
appends the user message and sets isTyping true. `t1` is the Date.now()
reading at dispatch start. -/
def sendMessageStart (t1 : Nat) (content : String) (s : ChatState) : ChatState :=
  { messages := s.messages ++ [userTextMsg t1 content], isTyping := true }

/-- Settlement of handleSendMessage: appends exactly one assistant message
(success, fallback or catch branch) and runs the finally block, which sets
isTyping false on every path. `t2` is the Date.now() reading at settlement. -/
def sendMessageSettle (t2 : Nat) (o : BackendOutcome) (s : ChatState) : ChatState :=
  { messages := s.messages ++ [assistantMsg t2 (textSettleContent o)], isTyping := false }

/-- Full handleSendMessage: start phase then settlement. -/
def handleSendMessage (t1 t2 : Nat) (content : String) (o : BackendOutcome)
    (s : ChatState) : ChatState :=
  sendMessageSettle t2 o (sendMessageStart t1 content s)

/-- Synchronous prefix of handleFileUpload. -/
def fileUploadStart (t1 : Nat) (name : String) (size : Nat) (s : ChatState) : ChatState :=
  { messages := s.messages ++ [userFileMsg t1 name size], isTyping := true }

/-- Settlement of handleFileUpload. -/
def fileUploadSettle (t2 : Nat) (name : String) (o : BackendOutcome)
    (s : ChatState) : ChatState :=
  { messages := s.messages ++ [assistantMsg t2 (fileSettleContent name o)], isTyping := false }

/-- Full handleFileUpload. -/
def handleFileUpload (t1 t2 : Nat) (name : String) (size : Nat) (o : BackendOutcome)
    (s : ChatState) : ChatState :=
  fileUploadSettle t2 name o (fileUploadStart t1 name size s)

/-- Synchronous prefix of handleAudioUpload. -/
def audioUploadStart (t1 : Nat) (durMs : Nat) (s : ChatState) : ChatState :=
  { messages := s.messages ++ [userAudioMsg t1 durMs], isTyping := true }

/-- Settlement of handleAudioUpload. -/
def audioUploadSettle (t2 : Nat) (durMs : Nat) (o : BackendOutcome)
    (s : ChatState) : ChatState :=
  { messages := s.messages ++ [assistantMsg t2 (audioSettleContent durMs o)], isTyping := false }

/-- Full handleAudioUpload. -/
def handleAudioUpload (t1 t2 : Nat) (durMs : Nat) (o : BackendOutcome)
    (s : ChatState) : ChatState :=
  audioUploadSettle t2 durMs o (audioUploadStart t1 durMs s)

/-- One user-initiated submit action together with the clock readings of its
dispatch (`t1` at start, `t2` at settlement) and its backend outcome. -/
inductive SubmitAction where
  | text (t1 t2 : Nat) (content : String) (o : BackendOutcome)
  | file (t1 t2 : Nat) (name : String) (size : Nat) (o : BackendOutcome)
  | audio (t1 t2 : Nat) (durMs : Nat) (o : BackendOutcome)
deriving DecidableEq

/-- Runs one action through the corresponding handler (start + settlement). -/
def applyAction (a : SubmitAction) (s : ChatState) : ChatState :=
  match a with
  | SubmitAction.text t1 t2 c o => handleSendMessage t1 t2 c o s
  | SubmitAction.file t1 t2 nm sz o => handleFileUpload t1 t2 nm sz o s
  | SubmitAction.audio t1 t2 dm o => handleAudioUpload t1 t2 dm o s

/-- Runs a sequence of actions; the spec's concurrency model is sequential
(the input surface is disabled while Responding), so each dispatch settles
before the next begins. -/
def runActions (as : List SubmitAction) (s : ChatState) : ChatState :=
  match as with
  | [] => s
  | a :: rest => runActions rest (applyAction a s)

/-- The user message an action appends at dispatch start. -/
def userMsgOf : SubmitAction → Message
  | SubmitAction.text t1 _ c _ => userTextMsg t1 c
  | SubmitAction.file t1 _ nm sz _ => userFileMsg t1 nm sz
  | SubmitAction.audio t1 _ dm _ => userAudioMsg t1 dm

/-- The assistant message an action appends at settlement. -/
def aiMsgOf : SubmitAction → Message
  | SubmitAction.text _ t2 _ o => assistantMsg t2 (textSettleContent o)
  | SubmitAction.file _ t2 nm _ o => assistantMsg t2 (fileSettleContent nm o)
  | SubmitAction.audio _ t2 dm o => assistantMsg t2 (audioSettleContent dm o)

/-- The contribution of one settled action to the message list. -/
def actionPair (a : SubmitAction) : List Message :=
  [userMsgOf a, aiMsgOf a]

theorem applyAction_messages (a : SubmitAction) (s : ChatState) :
    (applyAction a s).messages = s.messages ++ actionPair a := by
  cases a <;>
    simp [applyAction, handleSendMessage, sendMessageStart, sendMessageSettle,
      handleFileUpload, fileUploadStart, fileUploadSettle,
      handleAudioUpload, audioUploadStart, audioUploadSettle,
      actionPair, userMsgOf, aiMsgOf]

theorem applyAction_isTyping (a : SubmitAction) (s : ChatState) :
    (applyAction a s).isTyping = false := by
  cases a <;> rfl

theorem runActions_messages :
    ∀ (as : List SubmitAction) (s : ChatState),
      (runActions as s).messages = s.messages ++ (List.map actionPair as).flatten := by
  intro as
  induction as with
  | nil => intro s; simp [runActions]
  | cons a rest ih =>
      intro s
      simp [runActions, ih, applyAction_messages, List.append_assoc]

theorem runActions_append :
    ∀ (l1 l2 : List SubmitAction) (s : ChatState),
      runActions (l1 ++ l2) s = runActions l2 (runActions l1 s) := by
  intro l1
  induction l1 with
  | nil => intro l2 s; simp [runActions]
  | cons a rest ih => intro l2 s; simp [runActions, ih]

theorem pairs_flatten_length :
    ∀ as : List SubmitAction, ((List.map actionPair as).flatten).length = 2 * as.length := by
  intro as
  induction as with
  | nil => simp
  | cons a rest ih =>
      simp only [List.map_cons, List.flatten_cons, List.length_append, ih, actionPair,
        List.length_cons, List.length_nil]
      omega

theorem userMsgOf_sender (a : SubmitAction) : (userMsgOf a).sender = Sender.user := by
  cases a <;> rfl

theorem aiMsgOf_sender (a : SubmitAction) : (aiMsgOf a).sender = Sender.ai := by
  cases a <;> rfl

/-- Claim C1: for every sequence of submit actions, once all backend calls
have settled the Message Store is exactly the seed message followed by one
user-sender / assistant-sender pair per action in submission order, hence
holds 1 + 2 N messages after N actions; and the store only ever grows by
appending at the end (no message is mutated or removed). -/
theorem C1_store_shape_append_only :
    (∀ as : List SubmitAction,
        (runActions as initialState).messages
          = seedMessage :: (List.map actionPair as).flatten)
    ∧ (∀ as : List SubmitAction,
        (runActions as initialState).messages.length = 1 + 2 * as.length)
    ∧ (∀ a : SubmitAction,
        actionPair a = [userMsgOf a, aiMsgOf a]
          ∧ (userMsgOf a).sender = Sender.user
          ∧ (aiMsgOf a).sender = Sender.ai)
    ∧ (∀ (as : List SubmitAction) (a : SubmitAction),
        (runActions (as ++ [a]) initialState).messages
          = (runActions as initialState).messages ++ actionPair a) := by
  refine ⟨?_, ?_, ?_, ?_⟩
  · intro as
    simp [runActions_messages, initialState]
  · intro as
    rw [runActions_messages as initialState, List.length_append, pairs_flatten_length]
    simp [initialState]
  · intro a
    exact ⟨rfl, userMsgOf_sender a, aiMsgOf_sender a⟩
  · intro as a
    simp [runActions_append, runActions, applyAction_messages]

/-- Claim C2: the Responding flag (isTyping) is set true by the synchronous
start phase of every handler (right after the user message is appended), is
set false by the settlement of every handler on every outcome (the finally
block), and is false initially and after any settled sequence of actions. -/
theorem C2_responding_flag :
    initialState.isTyping = false
    ∧ (∀ (t : Nat) (c : String) (s : ChatState), (sendMessageStart t c s).isTyping = true)
    ∧ (∀ (t : Nat) (nm : String) (sz : Nat) (s : ChatState),
        (fileUploadStart t nm sz s).isTyping = true)
    ∧ (∀ (t dm : Nat) (s : ChatState), (audioUploadStart t dm s).isTyping = true)
    ∧ (∀ (t : Nat) (o : BackendOutcome) (s : ChatState),
        (sendMessageSettle t o s).isTyping = false)
    ∧ (∀ (t : Nat) (nm : String) (o : BackendOutcome) (s : ChatState),
        (fileUploadSettle t nm o s).isTyping = false)
    ∧ (∀ (t dm : Nat) (o : BackendOutcome) (s : ChatState),
        (audioUploadSettle t dm o s).isTyping = false)
    ∧ (∀ (a : SubmitAction) (s : ChatState), (applyAction a s).isTyping = false) := by
  exact ⟨rfl, fun _ _ _ => rfl, fun _ _ _ _ => rfl, fun _ _ _ => rfl,
    fun _ _ _ => rfl, fun _ _ _ _ => rfl, fun _ _ _ _ => rfl,
    fun a s => applyAction_isTyping a s⟩

/-- Every message of a settled session satisfies the Boolean predicate `p`
provided the seed and both messages of every action satisfy it. -/
theorem all_pred_runActions (p : Message → Bool)
    (hu : ∀ a : SubmitAction, p (userMsgOf a) = true)
    (ha : ∀ a : SubmitAction, p (aiMsgOf a) = true) :
    ∀ (as : List SubmitAction) (s : ChatState),
      s.messages.all p = true → ((runActions as s).messages.all p) = true := by
  intro as
  induction as with
  | nil => intro s hs; simpa [runActions] using hs
  | cons a rest ih =>
      intro s hs
      refine ih (applyAction a s) ?_
      simp [applyAction_messages, actionPair, List.all_append, hs, hu a, ha a]

/-- Boolean check: every assistant-sender message has kind text. -/
def assistantMsgsAreText (s : ChatState) : Bool :=
  s.messages.all fun m => decide (m.sender = Sender.ai → m.type = MsgType.text)

/-- Boolean check: every file- or audio-kind message has sender user. -/
def fileAudioMsgsAreUser (s : ChatState) : Bool :=
  s.messages.all fun m =>
    decide (m.type = MsgType.file ∨ m.type = MsgType.audio → m.sender = Sender.user)

/-- Claim C10: in every settled session, every assistant-sender message has
kind text, and equivalently every message of kind file or audio has sender
user. -/
theorem C10_assistant_always_text :
    ∀ as : List SubmitAction,
      assistantMsgsAreText (runActions as initialState) = true
        ∧ fileAudioMsgsAreUser (runActions as initialState) = true := by
  intro as
  constructor
  · refine all_pred_runActions _ ?_ ?_ as initialState (by decide)
    · intro a; cases a <;> rfl
    · intro a; cases a <;> rfl
  · refine all_pred_runActions _ ?_ ?_ as initialState (by decide)
    · intro a; cases a <;> rfl
    · intro a; cases a <;> rfl

/-- Size limit of handleFileSelect in FileUpload.tsx: 10 * 1024 * 1024 bytes. -/
def maxFileSizeBytes : Nat := 10 * 1024 * 1024

/-- MIME allow-list of handleFileSelect. -/
def allowedTypes : List String :=
  [ "text/plain"
  , "application/pdf"
  , "application/msword"
  , "application/vnd.openxmlformats-officedocument.wordprocessingml.document"
  , "image/jpeg"
  , "image/png"
  , "image/gif"
  , "text/csv" ]

/-- The parts of a browser File object the validator reads. -/
structure JsFile where
  name : String
  size : Nat
  type : String
deriving DecidableEq

/-- Result of the client-side validation: either a blocking alert notice, or
the file handed to the onFileUpload callback. -/
inductive FileSelectResult where
  | rejected (notice : String)
  | accepted (f : JsFile)
deriving DecidableEq

/-- Alert text for an oversized file. -/
def sizeNotice : String := "File size must be less than 10MB"

/-- Alert text for a disallowed MIME type. -/
def typeNotice : String :=
  "File type not supported. Please upload PDF, DOC, DOCX, TXT, CSV, or image files."

/-- handleFileSelect of FileUpload.tsx: size check first, then the MIME
allow-list; only a file passing both reaches onFileUpload. -/
def handleFileSelect (f : JsFile) : FileSelectResult :=
  if f.size > maxFileSizeBytes then FileSelectResult.rejected sizeNotice
  else if f.type ∉ allowedTypes then FileSelectResult.rejected typeNotice
  else FileSelectResult.accepted f

/-- Composition of the File Adapter with the Dispatch Controller: a rejected
file leaves the chat state untouched and never invokes the backend (the
Boolean records whether a backend call was made); an accepted file runs
handleFileUpload. -/
def fileSelectAndDispatch (t1 t2 : Nat) (o : BackendOutcome) (f : JsFile)
    (s : ChatState) : ChatState × Bool :=
  match handleFileSelect f with
  | FileSelectResult.rejected _ => (s, false)
  | FileSelectResult.accepted g => (handleFileUpload t1 t2 g.name g.size o s, true)

/-- Claim C3: a file over 10 MiB or with a MIME type outside the allow-list
is rejected with a blocking notice, appends no message and never invokes the
backend; a file exactly at the size limit with an allow-listed type is
passed to the Dispatch Controller. -/
theorem C3_file_validation (f : JsFile) (s : ChatState) (t1 t2 : Nat) (o : BackendOutcome) :
    (f.size > maxFileSizeBytes ∨ f.type ∉ allowedTypes →
      (∃ notice, handleFileSelect f = FileSelectResult.rejected notice)
        ∧ fileSelectAndDispatch t1 t2 o f s = (s, false))
    ∧ (f.size = maxFileSizeBytes ∧ f.type ∈ allowedTypes →
      handleFileSelect f = FileSelectResult.accepted f
        ∧ (fileSelectAndDispatch t1 t2 o f s).1 = handleFileUpload t1 t2 f.name f.size o s
        ∧ (fileSelectAndDispatch t1 t2 o f s).2 = true) := by
  constructor
  · intro h
    have hrej : ∃ notice, handleFileSelect f = FileSelectResult.rejected notice := by
      rcases h with h | h
      · exact ⟨sizeNotice, by simp [handleFileSelect, h]⟩
      · by_cases hs : f.size > maxFileSizeBytes
        · exact ⟨sizeNotice, by simp [handleFileSelect, hs]⟩
        · exact ⟨typeNotice, by simp [handleFileSelect, hs, h]⟩
    obtain ⟨n, hn⟩ := hrej
    exact ⟨⟨n, hn⟩, by simp [fileSelectAndDispatch, hn]⟩
  · rintro ⟨hsz, hty⟩
    have hng : ¬ f.size > maxFileSizeBytes := by
      rw [hsz]; exact Nat.lt_irrefl _
    have hacc : handleFileSelect f = FileSelectResult.accepted f := by
      simp [handleFileSelect, hng, hty]
    exact ⟨hacc, by simp [fileSelectAndDispatch, hacc], by simp [fileSelectAndDispatch, hacc]⟩

/-- An 11 MiB plain-text file. -/
def bigFile : JsFile := { name := "big.txt", size := 11 * 1024 * 1024, type := "text/plain" }

/-- A plain-text file exactly at the 10 MiB limit. -/
def limitFile : JsFile := { name := "ok.txt", size := 10 * 1024 * 1024, type := "text/plain" }

/-- Witness for C3 at an 11 MiB file (rejected, no dispatch) and at a file
exactly at the size limit (accepted). -/
theorem C3_file_validation_witness :
    ((∃ notice, handleFileSelect bigFile = FileSelectResult.rejected notice)
      ∧ fileSelectAndDispatch 100 200 BackendOutcome.networkError bigFile initialState
          = (initialState, false))
    ∧ (handleFileSelect limitFile = FileSelectResult.accepted limitFile
      ∧ (fileSelectAndDispatch 100 200 BackendOutcome.networkError limitFile initialState).2
          = true) :=
  ⟨(C3_file_validation bigFile initialState 100 200 BackendOutcome.networkError).1
      (Or.inl (by decide)),
   ((C3_file_validation limitFile initialState 100 200 BackendOutcome.networkError).2
      ⟨by decide, by decide⟩).1,
   ((C3_file_validation limitFile initialState 100 200 BackendOutcome.networkError).2
      ⟨by decide, by decide⟩).2.2⟩

/-- Content of the most recently appended message. -/
def lastContent (s : ChatState) : String :=
  match s.messages.getLast? with
  | some m => m.content
  | none => ""

theorem lastContent_text (t1 t2 : Nat) (c : String) (o : BackendOutcome) (s : ChatState) :
    lastContent (handleSendMessage t1 t2 c o s) = textSettleContent o := by
  simp [handleSendMessage, sendMessageSettle, lastContent, assistantMsg, List.getLast?_concat]

theorem lastContent_file (t1 t2 : Nat) (nm : String) (sz : Nat) (o : BackendOutcome)
    (s : ChatState) :
    lastContent (handleFileUpload t1 t2 nm sz o s) = fileSettleContent nm o := by
  simp [handleFileUpload, fileUploadSettle, lastContent, assistantMsg, List.getLast?_concat]

theorem lastContent_audio (t1 t2 : Nat) (dm : Nat) (o : BackendOutcome) (s : ChatState) :
    lastContent (handleAudioUpload t1 t2 dm o s) = audioSettleContent dm o := by
  simp [handleAudioUpload, audioUploadSettle, lastContent, assistantMsg, List.getLast?_concat]

/-- Counterexample to claim C4 as stated: a 2xx response whose body is the
record with `response` set to the empty string yields the fallback
acknowledgement, not the empty string, because the JavaScript disjunction
`data.response || fallback` treats the empty string as falsy. -/
theorem C4_counterexample_empty_response :
    (handleSendMessage 100 200 "hi" (BackendOutcome.success (some "")) initialState).messages.map
        Message.content
      = [seedMessage.content, "hi", textFallbackContent]
    ∧ textFallbackContent ≠ "" := by
  constructor
  · rfl
  · decide

/-- Claim C4 (amended): on a 2xx response, the assistant message content
equals the `response` field for every non-empty string value of that field;
when the field is absent, and likewise when it is the empty string, the content
is the fixed per-kind fallback acknowledgement. -/
theorem C4_amended_response_or_fallback (t1 t2 : Nat) (s : ChatState) (c nm : String)
    (sz dm : Nat) (r : String) (hr : r ≠ "") :
    lastContent (handleSendMessage t1 t2 c (BackendOutcome.success (some r)) s) = r
    ∧ lastContent (handleFileUpload t1 t2 nm sz (BackendOutcome.success (some r)) s) = r
    ∧ lastContent (handleAudioUpload t1 t2 dm (BackendOutcome.success (some r)) s) = r
    ∧ lastContent (handleSendMessage t1 t2 c (BackendOutcome.success none) s)
        = textFallbackContent
    ∧ lastContent (handleFileUpload t1 t2 nm sz (BackendOutcome.success none) s)
        = fileFallbackContent nm
    ∧ lastContent (handleAudioUpload t1 t2 dm (BackendOutcome.success none) s)
        = audioFallbackContent dm
    ∧ lastContent (handleSendMessage t1 t2 c (BackendOutcome.success (some "")) s)
        = textFallbackContent
    ∧ lastContent (handleFileUpload t1 t2 nm sz (BackendOutcome.success (some "")) s)
        = fileFallbackContent nm
    ∧ lastContent (handleAudioUpload t1 t2 dm (BackendOutcome.success (some "")) s)
        = audioFallbackContent dm := by
  refine ⟨?_, ?_, ?_, ?_, ?_, ?_, ?_, ?_, ?_⟩ <;>
    simp [lastContent_text, lastContent_file, lastContent_audio, textSettleContent,
      fileSettleContent, audioSettleContent, jsStringOr, hr]

/-- Witness for the amended C4 at the spec example: response value "OK" for
a file submission yields assistant content exactly "OK". -/
theorem C4_amended_witness :
    lastContent (handleFileUpload 100 200 "a.txt" 5 (BackendOutcome.success (some "OK"))
      initialState) = "OK" :=
  (C4_amended_response_or_fallback 100 200 initialState "hi" "a.txt" 5 7000 "OK"
    (by decide)).2.1

/-- Claim C5: every failing dispatch (non-2xx status for any status value,
or network/parse error) appends an assistant message whose content is the
fixed per-kind error string (independent of the underlying status or error,
which is only logged); the prior messages are all retained, the Responding
flag is cleared, and the store still accepts further submissions. -/
theorem C5_failure_fixed_error_strings (t1 t2 : Nat) (s : ChatState) (c nm : String)
    (sz dm : Nat) (o : BackendOutcome)
    (h : (∃ n, o = BackendOutcome.httpError n) ∨ o = BackendOutcome.networkError) :
    handleSendMessage t1 t2 c o s
        = { messages := s.messages ++ [userTextMsg t1 c, assistantMsg t2 textErrorContent]
          , isTyping := false }
    ∧ handleFileUpload t1 t2 nm sz o s
        = { messages := s.messages ++ [userFileMsg t1 nm sz, assistantMsg t2 fileErrorContent]
          , isTyping := false }
    ∧ handleAudioUpload t1 t2 dm o s
        = { messages := s.messages ++ [userAudioMsg t1 dm, assistantMsg t2 audioErrorContent]
          , isTyping := false }
    ∧ (∀ a : SubmitAction,
        (applyAction a (handleSendMessage t1 t2 c o s)).messages
          = (handleSendMessage t1 t2 c o s).messages ++ actionPair a) := by
  have htext : textSettleContent o = textErrorContent := by
    rcases h with ⟨n, rfl⟩ | rfl <;> rfl
  have hfile : fileSettleContent nm o = fileErrorContent := by
    rcases h with ⟨n, rfl⟩ | rfl <;> rfl
  have haud : audioSettleContent dm o = audioErrorContent := by
    rcases h with ⟨n, rfl⟩ | rfl <;> rfl
  refine ⟨?_, ?_, ?_, fun a => applyAction_messages a _⟩
  · simp [handleSendMessage, sendMessageStart, sendMessageSettle, htext]
  · simp [handleFileUpload, fileUploadStart, fileUploadSettle, hfile]
  · simp [handleAudioUpload, audioUploadStart, audioUploadSettle, haud]

/-- Witness for C5 at a simulated HTTP 500 response for a text submission:
the assistant message is exactly the fixed text error string. -/
theorem C5_failure_witness :
    handleSendMessage 100 200 "hi" (BackendOutcome.httpError 500) initialState
      = { messages := initialState.messages
            ++ [userTextMsg 100 "hi", assistantMsg 200 textErrorContent]
        , isTyping := false } :=
  (C5_failure_fixed_error_strings 100 200 initialState "hi" "a.txt" 5 7000
    (BackendOutcome.httpError 500) (Or.inl ⟨500, rfl⟩)).1

/-- Counterexample to claim C8 as stated: an audio dispatch of duration 2.3
seconds (2300 ms of wall clock) whose 2xx response lacks the `response`
field yields the fallback with the duration embedded verbatim ("2.3"), not
the rounded duration ("2"): the handler performs no rounding. -/
theorem C8_counterexample_unrounded_duration :
    lastContent (handleAudioUpload 100 200 2300 (BackendOutcome.success none) initialState)
      = "I\x27ve received and processed your voice message (2.3s)."
    ∧ "I\x27ve received and processed your voice message (2.3s)."
      ≠ "I\x27ve received and processed your voice message (2s)." := by
  constructor
  · rw [lastContent_audio]
    decide
  · decide

/-- Claim C8 (amended): for every audio submission whose 2xx response lacks
the `response` field, the assistant content is the audio fallback string
with the exact (unrounded) duration embedded; for an integral duration such
as 7 seconds the embedded text is "7", as in the spec example. -/
theorem C8_amended_exact_duration (t1 t2 dm : Nat) (s : ChatState) :
    lastContent (handleAudioUpload t1 t2 dm (BackendOutcome.success none) s)
      = audioFallbackContent dm
    ∧ audioFallbackContent dm
      = "I\x27ve received and processed your voice message ("
          ++ durationToString dm ++ "s)."
    ∧ durationToString 7000 = "7"
    ∧ audioFallbackContent 7000
      = "I\x27ve received and processed your voice message (7s)." := by
  refine ⟨?_, rfl, by decide, by decide⟩
  simp [lastContent_audio, audioSettleContent, jsStringOr]

/-- Fixed downstream analysis URL of LogAnalysisService. -/
def pythonAgentUrl : String := "http://localhost:8001/analyze"

/-- Body the relay sends downstream: JSON.stringify of a record holding the
received array in its logs field — the array is forwarded unmodified. -/
def analyzeLogsRequestBody (logs : List String) : List String := logs

/-- The downstream response as read by analyzeLogs: HTTP status, statusText,
and the JSON body (`none` when response.json() would reject). -/
structure DownResponse where
  status : Nat
  statusText : String
  jsonBody : Option String
deriving DecidableEq

/-- Outcome of the awaited downstream fetch: a completed response, or a
transport-level rejection. -/
inductive FetchOutcome where
  | resp (r : DownResponse)
  | transportError
deriving DecidableEq

/-- The response.ok predicate: status in the 2xx range (ok means 200-299). -/
def respOk (r : DownResponse) : Bool :=
  decide (200 ≤ r.status) && decide (r.status < 300)

/-- A NestJS HttpException value: user-facing message and HTTP status. -/
structure HttpException where
  message : String
  status : Nat
deriving DecidableEq

/-- A thrown JavaScript value inside the try block of analyzeLogs: either
the HttpException constructed for a non-ok downstream status, or any other
error (rejected fetch, failed JSON parse). -/
inductive JsThrow where
  | httpEx (message : String) (status : Nat)
  | jsError (message : String)
deriving DecidableEq

/-- The try block of LogAnalysisService.analyzeLogs: on a non-ok downstream
status it throws an HttpException carrying that status; on transport or
JSON-parse failure it throws an ordinary error; otherwise it returns the
downstream JSON data. -/
def analyzeLogsAttempt (out : FetchOutcome) : Except JsThrow String :=
  match out with
  | FetchOutcome.transportError => Except.error (JsThrow.jsError "fetch failed")
  | FetchOutcome.resp r =>
      if respOk r = false then
        Except.error (JsThrow.httpEx ("Python agent error: " ++ r.statusText) r.status)
      else
        match r.jsonBody with
        | none => Except.error (JsThrow.jsError "invalid JSON")
        | some data => Except.ok data

/-- Full LogAnalysisService.analyzeLogs: the surrounding catch block catches
every thrown value — including the HttpException that carries the downstream
status — and throws a fixed HttpException with status 500 instead. -/
def analyzeLogs (logs : List String) (out : FetchOutcome) : Except HttpException String :=
  match analyzeLogsAttempt out with
  | Except.ok data => Except.ok data
  | Except.error _ =>
      Except.error { message := "Failed to reach Python agent", status := 500 }

/-- Claim C6 evaluation: the array is forwarded unmodified and a transport
failure raises the fixed 500 error, as claimed; but when the downstream call
completes with status 404 the inner code builds an HttpException carrying
404 and the catch-all then raises the fixed 500 instead — the downstream
status is never propagated, contradicting the claim. -/
theorem C6_downstream_status_swallowed :
    analyzeLogsRequestBody ["boot failure"] = ["boot failure"]
    ∧ analyzeLogsAttempt
        (FetchOutcome.resp { status := 404, statusText := "Not Found", jsonBody := some "data" })
        = Except.error (JsThrow.httpEx "Python agent error: Not Found" 404)
    ∧ analyzeLogs ["boot failure"]
        (FetchOutcome.resp { status := 404, statusText := "Not Found", jsonBody := some "data" })
        = Except.error { message := "Failed to reach Python agent", status := 500 }
    ∧ analyzeLogs ["boot failure"] FetchOutcome.transportError
        = Except.error { message := "Failed to reach Python agent", status := 500 }
    ∧ (500 : Nat) ≠ 404 := by
  refine ⟨rfl, rfl, rfl, rfl, by decide⟩

/-- Refs of the AudioRecorder component (useRef cells, shared by all
renders): the MediaRecorder handle, the captured MediaStream, and whether
the elapsed-time interval is active. Handles are modelled as numeric ids. -/
structure RecorderRefs where
  mediaRecorder : Option Nat
  stream : Option Nat
  timer : Bool
deriving DecidableEq

/-- Observable world of the AudioRecorder: the refs, the current value of
the isRecording useState, how many times the tracks of the captured stream
have been stopped (the release count the claim is about), and whether
MediaRecorder.stop() has been called (which is what makes the browser fire
the onstop event). -/
structure RecorderWorld where
  refs : RecorderRefs
  isRecording : Bool
  trackStops : Nat
  recorderStopCalled : Bool
deriving DecidableEq

/-- World before any recording: refs null, not recording. -/
def initialRecorderWorld : RecorderWorld :=
  { refs := { mediaRecorder := none, stream := none, timer := false }
  , isRecording := false, trackStops := 0, recorderStopCalled := false }

/-- startRecording: stores the granted stream and the new MediaRecorder in
the refs, sets isRecording true and starts the display timer. -/
def startRecording (streamId recId : Nat) (w : RecorderWorld) : RecorderWorld :=
  { w with
      refs := { mediaRecorder := some recId, stream := some streamId, timer := true }
    , isRecording := true }

/-- stopRecording as created by one render: the guard reads the
mediaRecorder ref (current) and the isRecording value captured by that
render's closure. When the guard passes it calls MediaRecorder.stop(), sets
isRecording false and clears the timer; the stream itself is only released
later by the onstop handler. -/
def stopRecording (isRecordingClosure : Bool) (w : RecorderWorld) : RecorderWorld :=
  if w.refs.mediaRecorder.isSome && isRecordingClosure then
    { w with recorderStopCalled := true
           , isRecording := false
           , refs := { w.refs with timer := false } }
  else w

/-- The onstop handler installed by startRecording: stops every track of the
stream held in the ref (releasing the capture device) and nulls the ref; the
optional chaining makes it a no-op when the ref is already null. -/
def recorderOnStop (w : RecorderWorld) : RecorderWorld :=
  match w.refs.stream with
  | some _ =>
      { w with trackStops := w.trackStops + 1
             , refs := { w.refs with stream := none } }
  | none => w

/-- The browser fires the onstop event exactly when MediaRecorder.stop() has
been called; this pump settles that pending event. -/
def recorderEventPump (w : RecorderWorld) : RecorderWorld :=
  if w.recorderStopCalled then recorderOnStop w else w

/-- The unmount cleanup returned by the mount effect (empty dependency
array): clearInterval, then the stopRecording closure of the first render —
whose captured isRecording value is false, the initial state, regardless of
the isRecording value current at teardown. -/
def effectCleanup (w : RecorderWorld) : RecorderWorld :=
  stopRecording false { w with refs := { w.refs with timer := false } }

/-- Claim C7 evaluation: tearing the component down mid-recording leaves the
capture device open — the cleanup closure reads the stale isRecording value
false, so MediaRecorder.stop() is never called, no onstop event ever fires,
and the stream is never released (zero releases, ref still set), contrary to
the claimed release-exactly-once. A user-initiated stop (whose closure reads
isRecording true) does release exactly once, and a teardown after it
releases nothing further. -/
theorem C7_teardown_leaks_stream :
    (startRecording 7 3 initialRecorderWorld).isRecording = true
    ∧ (recorderEventPump (effectCleanup (startRecording 7 3 initialRecorderWorld))).trackStops
        = 0
    ∧ (recorderEventPump (effectCleanup (startRecording 7 3 initialRecorderWorld))).refs.stream
        = some 7
    ∧ (recorderEventPump
          (effectCleanup (startRecording 7 3 initialRecorderWorld))).recorderStopCalled
        = false
    ∧ (recorderEventPump (stopRecording true (startRecording 7 3 initialRecorderWorld))).trackStops
        = 1
    ∧ (recorderEventPump (stopRecording true (startRecording 7 3 initialRecorderWorld))).refs.stream
        = none
    ∧ recorderEventPump (effectCleanup
          (recorderEventPump (stopRecording true (startRecording 7 3 initialRecorderWorld))))
        = recorderEventPump (stopRecording true (startRecording 7 3 initialRecorderWorld)) := by
  refine ⟨rfl, by decide, by decide, by decide, by decide, by decide, by decide⟩

/-- Numeric value of a decimal digit character. -/
def charDigitVal (c : Char) : Nat := c.toNat - 48

/-- Numeric reading of a list of decimal digit characters. -/
def decimalValChars (l : List Char) : Nat :=
  l.foldl (fun a c => 10 * a + charDigitVal c) 0

/-- Numeric reading of a decimal string (the message ids are produced by
Date.now().toString(), so this recovers the underlying clock value). -/
def decimalVal (s : String) : Nat := decimalValChars s.data

theorem toDigitsCore_append (b : Nat) :
    ∀ (f n : Nat) (ds : List Char),
      Nat.toDigitsCore b f n ds = Nat.toDigitsCore b f n [] ++ ds := by
  intro f
  induction f with
  | zero => intro n ds; simp [Nat.toDigitsCore]
  | succ f ih =>
      intro n ds
      by_cases h : n / b = 0
      · simp [Nat.toDigitsCore, h]
      · simp only [Nat.toDigitsCore, h, if_false]
        rw [ih (n / b) (Nat.digitChar (n % b) :: ds),
          ih (n / b) [Nat.digitChar (n % b)], List.append_assoc]
        rfl

theorem charDigitVal_digitChar : ∀ m, m < 10 → charDigitVal (Nat.digitChar m) = m := by
  decide

theorem decimalValChars_concat (l : List Char) (c : Char) :
    decimalValChars (l ++ [c]) = 10 * decimalValChars l + charDigitVal c := by
  simp [decimalValChars, List.foldl_append]

theorem decimalValChars_toDigitsCore :
    ∀ (f n : Nat), n < f → decimalValChars (Nat.toDigitsCore 10 f n []) = n := by
  intro f
  induction f with
  | zero => intro n h; omega
  | succ f ih =>
      intro n h
      by_cases h0 : n / 10 = 0
      · have hn : n < 10 := by omega
        simp only [Nat.toDigitsCore, h0, if_true]
        have : n % 10 = n := Nat.mod_eq_of_lt hn
        simp [decimalValChars, this, charDigitVal_digitChar n hn]
      · have hf : n / 10 < f := by omega
        simp only [Nat.toDigitsCore, h0, if_false]
        rw [toDigitsCore_append, decimalValChars_concat, ih (n / 10) hf,
          charDigitVal_digitChar (n % 10) (by omega)]
        omega

/-- The numeric reading is a left inverse of the decimal printing used for
message ids. -/
theorem decimalVal_repr (n : Nat) : decimalVal (Nat.repr n) = n :=
  decimalValChars_toDigitsCore (n + 1) n (Nat.lt_succ_self n)

theorem repr_injective {m n : Nat} (h : Nat.repr m = Nat.repr n) : m = n := by
  have h2 := congrArg decimalVal h
  rwa [decimalVal_repr, decimalVal_repr] at h2

/-- Date.now() reading at an action's dispatch start (the user message id). -/
def startStamp : SubmitAction → Nat
  | SubmitAction.text t1 _ _ _ => t1
  | SubmitAction.file t1 _ _ _ _ => t1
  | SubmitAction.audio t1 _ _ _ => t1

/-- Date.now() reading at an action's settlement (the assistant message id
is this reading plus one). -/
def settleStamp : SubmitAction → Nat
  | SubmitAction.text _ t2 _ _ => t2
  | SubmitAction.file _ t2 _ _ _ => t2
  | SubmitAction.audio _ t2 _ _ => t2

/-- The numeric values behind the two ids an action creates. -/
def actionIdStamps (a : SubmitAction) : List Nat :=
  [startStamp a, settleStamp a + 1]

/-- The numeric values behind all ids of a settled session, seed included
(the seed id is the literal "1"). -/
def sessionIdStamps (as : List SubmitAction) : List Nat :=
  1 :: (List.map actionIdStamps as).flatten

theorem actionPair_ids (a : SubmitAction) :
    (actionPair a).map Message.id = (actionIdStamps a).map Nat.repr := by
  cases a <;> rfl

theorem runActions_ids_aux :
    ∀ (as : List SubmitAction) (s : ChatState),
      (runActions as s).messages.map Message.id
        = s.messages.map Message.id
            ++ ((List.map actionIdStamps as).flatten).map Nat.repr := by
  intro as
  induction as with
  | nil => intro s; simp [runActions]
  | cons a rest ih =>
      intro s
      rw [runActions, ih, applyAction_messages]
      simp [actionPair_ids, List.append_assoc]

/-- The ids of a settled session are exactly the decimal strings of the
session stamps. -/
theorem runActions_ids (as : List SubmitAction) :
    (runActions as initialState).messages.map Message.id
      = (sessionIdStamps as).map Nat.repr := by
  rw [runActions_ids_aux as initialState]
  rfl

/-- Clock spacing under which the timestamp-derived ids are collision-free:
every Date.now() reading at a message-creating point strictly exceeds the
numeric value behind the previous id (so a dispatch must start at least 2 ms
after the previous one settled, and settle no earlier than it started). -/
def WellSpacedActions (as : List SubmitAction) : Prop :=
  List.Chain' (fun a b => a < b) (sessionIdStamps as)

/-- Counterexample to claim C9 as stated: with the non-decreasing (hence
platform-permitted) Date.now() readings 100, 100, 101, 101 across two text
dispatches, the first action's assistant id and the second action's user id
are both "101" — the ids are not unique. -/
theorem C9_counterexample_id_collision :
    ¬ ((runActions
          [ SubmitAction.text 100 100 "a" BackendOutcome.networkError
          , SubmitAction.text 101 101 "b" BackendOutcome.networkError ]
          initialState).messages.map Message.id).Nodup
    ∧ ((100 : Nat) ≤ 100 ∧ (100 : Nat) ≤ 101 ∧ (101 : Nat) ≤ 101) := by
  exact ⟨by decide, by decide⟩

/-- Claim C9 (amended): message ids are the decimal strings of the clock
readings at their creation points; whenever consecutive readings are spaced
apart (each reading strictly above the numeric value of the previous id),
all ids of the session are pairwise distinct and their numeric values
strictly increase in creation order. The spacing hypothesis is necessary,
since readings in adjacent milliseconds already collide. -/
theorem C9_amended_ids_unique_when_spaced (as : List SubmitAction)
    (h : WellSpacedActions as) :
    ((runActions as initialState).messages.map Message.id).Nodup
    ∧ List.Chain' (fun a b => a < b)
        (((runActions as initialState).messages.map Message.id).map decimalVal) := by
  have hvals : (((runActions as initialState).messages.map Message.id).map decimalVal)
      = sessionIdStamps as := by
    rw [runActions_ids, List.map_map]
    exact (List.map_congr_left (fun x _ => decimalVal_repr x)).trans (List.map_id _)
  constructor
  · have hp : (sessionIdStamps as).Pairwise (fun a b => a < b) :=
      List.chain'_iff_pairwise.mp h
    have hnd : (((runActions as initialState).messages.map Message.id).map decimalVal).Nodup := by
      rw [hvals]
      exact hp.imp (fun hlt => Nat.ne_of_lt hlt)
    exact List.Nodup.of_map decimalVal hnd
  · rw [hvals]
    exact h

/-- Two well-spaced dispatches used to witness the amended C9. -/
def demoActions : List SubmitAction :=
  [ SubmitAction.text 100 200 "hi" BackendOutcome.networkError
  , SubmitAction.file 300 400 "a.txt" 5 (BackendOutcome.success none) ]

/-- Witness for the amended C9 at a concrete well-spaced session. -/
theorem C9_amended_witness :
    ((runActions demoActions initialState).messages.map Message.id).Nodup :=
  (C9_amended_ids_unique_when_spaced demoActions (by
    unfold WellSpacedActions
    simp only [demoActions, sessionIdStamps, actionIdStamps, startStamp, settleStamp,
      List.map_cons, List.map_nil, List.flatten_cons, List.flatten_nil,
      List.cons_append, List.nil_append, List.chain'_cons, List.chain'_singleton,
      and_true]
    omega)).1

end Echo
